import Mathlib

/-
Verification of the two core routines of the iam-identity-center-team
repository:

* the Session Overlap Guard
  (amplify/backend/function/teamCheckOverlappingSessions/src/index.py), and
* the Entitlement Aggregation Engine
  (amplify/backend/function/teamgetEntitlement/src/index.py).

The Python code is shallowly embedded: the external collaborators (the
DynamoDB request/policy tables, the Organizations directory, the AppSync
publish endpoint) are passed in as explicit inputs of type `Except` over a
`ClientError` model, and the handlers are Lean functions over those inputs.
-/

set_option autoImplicit false

/-- Model of `botocore.exceptions.ClientError`: the pieces that determine its
string representation `str(error)`. -/
structure ClientError where
  code : String
  operation : String
  message : String
deriving Repr, DecidableEq

/-- Python `str(error)` for a `botocore` ClientError, which renders as
"An error occurred (code) when calling the operation operation: message". -/
def ClientError.str (e : ClientError) : String :=
  "An error occurred (" ++ e.code ++ ") when calling the " ++ e.operation
    ++ " operation: " ++ e.message

namespace CheckOverlappingSessions

/-- An access-request record in the requests table, with the attributes the
Guard scan filter reads. -/
structure RequestRecord where
  id : String
  email : String
  accountId : String
  roleId : String
  status : String
deriving Repr, DecidableEq

/-- The Step Functions event for the Guard; `event.get(k)` yields `None`
when a key is absent, so each field is an `Option String`. -/
structure GuardEvent where
  requests_table : Option String
  id : Option String
  email : Option String
  accountId : Option String
  roleId : Option String
deriving Repr, DecidableEq

/-- The dict returned by the Guard: `overlappingCount` and `error` each
appear only on some branches, so they are `Option`s. -/
structure GuardResult where
  hasOverlappingSessions : Bool
  overlappingCount : Option Nat
  error : Option String
deriving Repr, DecidableEq

/-- Python truthiness of an `event.get(...)` value: `None` and the empty
string are falsy. -/
def pyTruthy : Option String → Bool
  | none => false
  | some s => !(s == "")

/-- `all([table_name, current_request_id, email, account_id, role_id])`. -/
def allPresent (event : GuardEvent) : Bool :=
  pyTruthy event.requests_table && pyTruthy event.id && pyTruthy event.email
    && pyTruthy event.accountId && pyTruthy event.roleId

/-- The DynamoDB scan of index.py lines 57-76: FilterExpression
`status = :status_val AND email = :email_val AND accountId = :account_id_val
AND roleId = :role_id_val AND id <> :current_id`, with
ProjectionExpression `id`. -/
def scanOverlapping (table : List RequestRecord)
    (email accountId roleId currentId : String) : List String :=
  (table.filter (fun r =>
    r.status == "in progress" && r.email == email && r.accountId == accountId
      && r.roleId == roleId && !(r.id == currentId))).map (fun r => r.id)

/-- `lambda_handler` of teamCheckOverlappingSessions/src/index.py.  The
requests-table scan is an explicit input: `Except.error e` models the scan
raising `ClientError e` (caught by the handler), `Except.ok table` models a
successful scan over the table contents. -/
def lambda_handler (event : GuardEvent)
    (store : Except ClientError (List RequestRecord)) : GuardResult :=
  if allPresent event = false then
    { hasOverlappingSessions := false
      overlappingCount := none
      error := some "Missing required parameters" }
  else
    match store with
    | .error e =>
        { hasOverlappingSessions := false
          overlappingCount := none
          error := some (ClientError.str e) }
    | .ok table =>
        let items := scanOverlapping table (event.email.getD "")
          (event.accountId.getD "") (event.roleId.getD "") (event.id.getD "")
        { hasOverlappingSessions := decide (0 < items.length)
          overlappingCount := some items.length
          error := none }

end CheckOverlappingSessions

namespace GetEntitlement

/-- An `{id, name}` account (or permission-set) entry as emitted by the
aggregator (lowercase keys). -/
structure AccountEntry where
  name : String
  id : String
deriving Repr, DecidableEq

/-- An account as returned by Organizations `list_accounts_for_parent`
(capitalised keys `Id`, `Name`). -/
structure Acct where
  Name : String
  Id : String
deriving Repr, DecidableEq

/-- An `{id}` OU reference inside a policy's `ous` list. -/
structure OURef where
  id : String
deriving Repr, DecidableEq

/-- An eligibility-policy item from the policy table.  Attributes read via
`item.get` may be absent, so they are `Option`s; list attributes absent from
an item behave exactly like empty lists under `item.get(k, [])`, so they are
plain lists. -/
structure PolicyItem where
  id : Option String
  entityId : Option String
  accounts : List AccountEntry
  ous : List OURef
  permissions : List AccountEntry
  approvalRequired : Option Bool
  duration : Option String
deriving Repr, DecidableEq

/-- One entry of the aggregated `policy` output sequence. -/
structure PolicyEntry where
  accounts : List AccountEntry
  permissions : List AccountEntry
  approvalRequired : Bool
  duration : String
deriving Repr, DecidableEq

/-- The aggregator's result dict `{id, policy, username}`. -/
structure AggResult where
  id : String
  policy : List PolicyEntry
  username : String
deriving Repr, DecidableEq

/-- The handler's event. -/
structure HandlerEvent where
  userId : String
  groupIds : List String
  username : String
  id : String
deriving Repr, DecidableEq

/-- Outcome of the AppSync publish call in `publishPolicy`: the post raised,
or returned a response with a GraphQL `errors` field, or succeeded. -/
inductive PublishOutcome where
  | transportError (msg : String)
  | graphqlErrors (errs : List String)
  | success (response : String)
deriving Repr, DecidableEq

/-- Python `==` between a string and an `Optional[str]`: comparison with
`None` is `False`. -/
def pyEq (s : String) (o : Option String) : Bool :=
  match o with
  | none => false
  | some t => s == t

/-- `get_mgmt_account_id` at module initialisation: on success the
organization's `MasterAccountId`, on `ClientError` the error is printed and
the function implicitly returns `None`. -/
def get_mgmt_account_id (resp : Except ClientError String) : Option String :=
  match resp with
  | .ok masterAccountId => some masterAccountId
  | .error _ => none

/-- `list_account_for_ou(ouId)`: paginates `list_accounts_for_parent` and
collects `{name, id}` entries, skipping the management account unless
deployed in the management account.  `dir` is the directory's answer for
this OU (the flattened pages).  On `ClientError` the error is printed and
the function implicitly returns `None`, modelled by `Option`. -/
def list_account_for_ou (accountId : String) (mgmt : Option String)
    (dir : Except ClientError (List Acct)) : Option (List AccountEntry) :=
  let deployed_in_mgmt := pyEq accountId mgmt
  match dir with
  | .error _ => none
  | .ok accts =>
      some ((accts.filter (fun acct =>
        deployed_in_mgmt || !(pyEq acct.Id mgmt))).map
          (fun acct => { name := acct.Name, id := acct.Id }))

/-- `get_entitlements(id)`: query the `byEntityId` index (a `ClientError`
is caught and treated as no results), then the legacy `get_item` by primary
key (a `ClientError` is caught and ignored); the legacy item is appended
only if no item with the same `id` is already present.  The two `Except`
inputs are the table's answers to the two calls for this entity id. -/
def get_entitlements (indexResult : Except ClientError (List PolicyItem))
    (keyResult : Except ClientError (Option PolicyItem)) : List PolicyItem :=
  let policies : List PolicyItem :=
    match indexResult with
    | .ok items => items
    | .error _ => []
  match keyResult with
  | .ok (some old_policy) =>
      if policies.any (fun p => p.id == old_policy.id) then policies
      else policies ++ [old_policy]
  | .ok none => policies
  | .error _ => policies

/-- The value of a decimal digit character. -/
def digitVal (c : Char) : Option Nat :=
  if c.isDigit then some (c.toNat - 48) else none

/-- Accumulate the decimal value of a digit run; `none` on a non-digit. -/
def parseDigitsAux : List Char → Nat → Option Nat
  | [], acc => some acc
  | c :: rest, acc =>
      match digitVal c with
      | some d => parseDigitsAux rest (acc * 10 + d)
      | none => none

/-- Python `int(s)` for the duration strings: an optional leading minus sign
followed by decimal digits; `none` models the `ValueError` raised on a
non-numeric string. -/
def pyInt (s : String) : Option Int :=
  match s.data with
  | [] => none
  | '-' :: rest =>
      match rest with
      | [] => none
      | _ => (parseDigitsAux rest 0).map (fun n => -(n : Int))
  | cs => (parseDigitsAux cs 0).map (fun n => (n : Int))

/-- The `for ou in item.get("ous", [])` loop body: expand each OU and
`extend` the accumulated accounts.  When `list_account_for_ou` returned
`None` (its `ClientError` branch), `extend(None)` raises `TypeError`,
modelled as `Except.error`. -/
def processOUs (dir : String → Except ClientError (List Acct))
    (accountId : String) (mgmt : Option String) :
    List OURef → List AccountEntry → Except String (List AccountEntry)
  | [], acc => .ok acc
  | ou :: rest, acc =>
      match list_account_for_ou accountId mgmt (dir ou.id) with
      | none => .error "TypeError: NoneType object is not iterable"
      | some data => processOUs dir accountId mgmt rest (acc ++ data)

/-- The body of `for item in items`: update the running `maxDuration`, build
the accounts list (explicit accounts then OU expansions), carry through
permissions and approvalRequired, and default a missing `duration` to the
string of the current running `maxDuration`.  Returns the entry together
with the updated `maxDuration`; a non-numeric duration raises `ValueError`
and `extend(None)` raises `TypeError`. -/
def processItem (dir : String → Except ClientError (List Acct))
    (accountId : String) (mgmt : Option String) (maxDuration : Int)
    (item : PolicyItem) : Except String (PolicyEntry × Int) := do
  let durationStr := item.duration.getD "0"
  let d ← match pyInt durationStr with
    | some d => Except.ok d
    | none => Except.error "ValueError: invalid literal for int"
  let maxDuration := if d > maxDuration then d else maxDuration
  let accounts ← processOUs dir accountId mgmt item.ous item.accounts
  Except.ok
    ({ accounts := accounts
       permissions := item.permissions
       approvalRequired := item.approvalRequired.getD true
       duration := item.duration.getD (toString maxDuration) }, maxDuration)

/-- The inner `for item in items` loop, threading `eligibility` and
`maxDuration`. -/
def processItems (dir : String → Except ClientError (List Acct))
    (accountId : String) (mgmt : Option String) :
    List PolicyItem → List PolicyEntry → Int →
      Except String (List PolicyEntry × Int)
  | [], eligibility, maxDuration => .ok (eligibility, maxDuration)
  | item :: rest, eligibility, maxDuration => do
      let (entry, maxDuration') ← processItem dir accountId mgmt maxDuration item
      processItems dir accountId mgmt rest (eligibility ++ [entry]) maxDuration'

/-- The outer `for id in [userId] + groupIds` loop: skip falsy ids, resolve
each id's policies with `get_entitlements`, and process the items.
`indexQ`/`keyQ` give the policy table's answers per entity id. -/
def processIds (dir : String → Except ClientError (List Acct))
    (indexQ : String → Except ClientError (List PolicyItem))
    (keyQ : String → Except ClientError (Option PolicyItem))
    (accountId : String) (mgmt : Option String) :
    List String → List PolicyEntry → Int →
      Except String (List PolicyEntry × Int)
  | [], eligibility, maxDuration => .ok (eligibility, maxDuration)
  | i :: rest, eligibility, maxDuration =>
      if i == "" then processIds dir indexQ keyQ accountId mgmt rest eligibility maxDuration
      else do
        let items := get_entitlements (indexQ i) (keyQ i)
        let (eligibility', maxDuration') ←
          processItems dir accountId mgmt items eligibility maxDuration
        processIds dir indexQ keyQ accountId mgmt rest eligibility' maxDuration'

/-- The locally computed aggregation result `{id, policy, username}` of
`handler`, before the publish step. -/
def computeResult (dir : String → Except ClientError (List Acct))
    (indexQ : String → Except ClientError (List PolicyItem))
    (keyQ : String → Except ClientError (Option PolicyItem))
    (accountId : String) (mgmt : Option String)
    (event : HandlerEvent) : Except String AggResult := do
  let (eligibility, _) ←
    processIds dir indexQ keyQ accountId mgmt (event.userId :: event.groupIds) [] 0
  Except.ok { id := event.id, policy := eligibility, username := event.username }

/-- `publishPolicy(result)`: posts the mutation; a raised exception is
caught and printed, a response carrying `errors` is printed, a success is
printed — in every case the function returns `result` unchanged. -/
def publishPolicy (outcome : PublishOutcome) (result : AggResult) : AggResult :=
  match outcome with
  | .transportError _ => result
  | .graphqlErrors _ => result
  | .success _ => result

/-- `handler(event, context)` of teamgetEntitlement/src/index.py: aggregate,
then `return publishPolicy(result)`. -/
def handler (dir : String → Except ClientError (List Acct))
    (indexQ : String → Except ClientError (List PolicyItem))
    (keyQ : String → Except ClientError (Option PolicyItem))
    (accountId : String) (mgmt : Option String)
    (outcome : PublishOutcome) (event : HandlerEvent) : Except String AggResult :=
  (computeResult dir indexQ keyQ accountId mgmt event).map (publishPolicy outcome)

end GetEntitlement

/-- The rendering of a ClientError is never the empty string. -/
theorem ClientError.str_ne_empty (e : ClientError) : ClientError.str e ≠ "" := by
  intro h
  have hlen := congrArg String.length h
  simp [ClientError.str, String.length_append] at hlen
  exact (by decide : ¬ ("An error occurred (" : String).length = 0) hlen.1.1.1.1.1

open CheckOverlappingSessions

open GetEntitlement

/-- Helper: all five Guard inputs present as non-empty strings pass the
`all([...])` precondition check. -/
theorem allPresent_of_nonempty (tn cid em aid rid : String)
    (h1 : tn ≠ "") (h2 : cid ≠ "") (h3 : em ≠ "") (h4 : aid ≠ "") (h5 : rid ≠ "") :
    allPresent ⟨some tn, some cid, some em, some aid, some rid⟩ = true := by
  simp [allPresent, pyTruthy, h1, h2, h3, h4, h5]

/-- C1: with all five inputs present and a successful store query,
`hasOverlappingSessions` is true iff some request record has status
"in progress", matching email/accountId/roleId, and an id different from the
current request id; the returned count is the number of such records (so the
count is 0 and the flag false when the only matching record is the current
request itself). -/
theorem guard_overlap_decision (tn cid em aid rid : String)
    (table : List RequestRecord)
    (h1 : tn ≠ "") (h2 : cid ≠ "") (h3 : em ≠ "") (h4 : aid ≠ "") (h5 : rid ≠ "") :
    ((lambda_handler ⟨some tn, some cid, some em, some aid, some rid⟩
        (.ok table)).hasOverlappingSessions = true
      ↔ ∃ r ∈ table, r.status = "in progress" ∧ r.email = em ∧ r.accountId = aid
          ∧ r.roleId = rid ∧ r.id ≠ cid)
    ∧ (lambda_handler ⟨some tn, some cid, some em, some aid, some rid⟩
        (.ok table)).overlappingCount
      = some (table.countP (fun r => decide (r.status = "in progress" ∧ r.email = em
          ∧ r.accountId = aid ∧ r.roleId = rid ∧ r.id ≠ cid)))
    ∧ (lambda_handler ⟨some tn, some cid, some em, some aid, some rid⟩
        (.ok table)).error = none := by
  have hap := allPresent_of_nonempty tn cid em aid rid h1 h2 h3 h4 h5
  have hpred : ∀ r : RequestRecord,
      (r.status == "in progress" && r.email == em && r.accountId == aid
        && r.roleId == rid && !(r.id == cid))
      = decide (r.status = "in progress" ∧ r.email = em ∧ r.accountId = aid
          ∧ r.roleId = rid ∧ r.id ≠ cid) := by
    intro r
    by_cases hs : r.status = "in progress" <;>
      by_cases he : r.email = em <;>
      by_cases ha : r.accountId = aid <;>
      by_cases hr : r.roleId = rid <;>
      by_cases hi : r.id = cid <;>
      simp [hs, he, ha, hr, hi]
  refine ⟨?_, ?_, ?_⟩
  · simp only [lambda_handler, hap, Bool.true_eq_false, if_false, scanOverlapping,
      List.length_map, Option.getD_some]
    rw [← List.countP_eq_length_filter]
    rw [show (fun r : RequestRecord => r.status == "in progress" && r.email == em
      && r.accountId == aid && r.roleId == rid && !(r.id == cid))
      = fun r => decide (r.status = "in progress" ∧ r.email = em ∧ r.accountId = aid
          ∧ r.roleId = rid ∧ r.id ≠ cid) from funext hpred]
    rw [decide_eq_true_iff, List.countP_pos_iff]
    constructor
    · rintro ⟨r, hmem, hdec⟩
      exact ⟨r, hmem, of_decide_eq_true hdec⟩
    · rintro ⟨r, hmem, hprop⟩
      exact ⟨r, hmem, decide_eq_true hprop⟩
  · simp only [lambda_handler, hap, Bool.true_eq_false, if_false, scanOverlapping,
      List.length_map, Option.getD_some]
    rw [← List.countP_eq_length_filter]
    rw [show (fun r : RequestRecord => r.status == "in progress" && r.email == em
      && r.accountId == aid && r.roleId == rid && !(r.id == cid))
      = fun r => decide (r.status = "in progress" ∧ r.email = em ∧ r.accountId = aid
          ∧ r.roleId = rid ∧ r.id ≠ cid) from funext hpred]
  · simp [lambda_handler, hap]

/-- C1 witness: a table holding the current request and one other matching
"in progress" record yields the flag and a count of 1. -/
theorem guard_overlap_decision_witness :
    ("tbl" : String) ≠ "" ∧
    (((lambda_handler ⟨some "tbl", some "req-1", some "user@corp", some "111", some "ps-1"⟩
        (.ok [⟨"req-1", "user@corp", "111", "ps-1", "in progress"⟩,
              ⟨"req-2", "user@corp", "111", "ps-1", "in progress"⟩])).hasOverlappingSessions = true
      ↔ ∃ r ∈ [(⟨"req-1", "user@corp", "111", "ps-1", "in progress"⟩ : RequestRecord),
              ⟨"req-2", "user@corp", "111", "ps-1", "in progress"⟩],
          r.status = "in progress" ∧ r.email = "user@corp" ∧ r.accountId = "111"
          ∧ r.roleId = "ps-1" ∧ r.id ≠ "req-1")
    ∧ (lambda_handler ⟨some "tbl", some "req-1", some "user@corp", some "111", some "ps-1"⟩
        (.ok [⟨"req-1", "user@corp", "111", "ps-1", "in progress"⟩,
              ⟨"req-2", "user@corp", "111", "ps-1", "in progress"⟩])).overlappingCount
      = some ([(⟨"req-1", "user@corp", "111", "ps-1", "in progress"⟩ : RequestRecord),
              ⟨"req-2", "user@corp", "111", "ps-1", "in progress"⟩].countP
          (fun r => decide (r.status = "in progress" ∧ r.email = "user@corp"
            ∧ r.accountId = "111" ∧ r.roleId = "ps-1" ∧ r.id ≠ "req-1")))
    ∧ (lambda_handler ⟨some "tbl", some "req-1", some "user@corp", some "111", some "ps-1"⟩
        (.ok [⟨"req-1", "user@corp", "111", "ps-1", "in progress"⟩,
              ⟨"req-2", "user@corp", "111", "ps-1", "in progress"⟩])).error = none) :=
  ⟨by decide,
   guard_overlap_decision "tbl" "req-1" "user@corp" "111" "ps-1" _
     (by decide) (by decide) (by decide) (by decide) (by decide)⟩

/-- C2: when the five inputs are present and the store query raises, the
Guard catches the error and returns `hasOverlappingSessions = false`, no
count, and the non-empty rendering of the error — it never raises to the
caller (the handler is total here by construction). -/
theorem guard_fail_open (tn cid em aid rid : String) (e : ClientError)
    (h1 : tn ≠ "") (h2 : cid ≠ "") (h3 : em ≠ "") (h4 : aid ≠ "") (h5 : rid ≠ "") :
    lambda_handler ⟨some tn, some cid, some em, some aid, some rid⟩ (.error e)
      = { hasOverlappingSessions := false, overlappingCount := none,
          error := some (ClientError.str e) }
    ∧ ClientError.str e ≠ "" := by
  have hap := allPresent_of_nonempty tn cid em aid rid h1 h2 h3 h4 h5
  exact ⟨by simp [lambda_handler, hap], ClientError.str_ne_empty e⟩

/-- C2 witness: a forced ClientError on the scan produces the fail-open
result with a non-empty error string. -/
theorem guard_fail_open_witness :
    ("tbl" : String) ≠ "" ∧
    (lambda_handler ⟨some "tbl", some "req-1", some "user@corp", some "111", some "ps-1"⟩
        (.error ⟨"ProvisionedThroughputExceededException", "Scan", "rate exceeded"⟩)
      = { hasOverlappingSessions := false, overlappingCount := none,
          error := some (ClientError.str
            ⟨"ProvisionedThroughputExceededException", "Scan", "rate exceeded"⟩) }
    ∧ ClientError.str
        ⟨"ProvisionedThroughputExceededException", "Scan", "rate exceeded"⟩ ≠ "") :=
  ⟨by decide,
   guard_fail_open "tbl" "req-1" "user@corp" "111" "ps-1" _
     (by decide) (by decide) (by decide) (by decide) (by decide)⟩

/-- C7: when any of the five inputs is absent or the empty string, the Guard
returns `hasOverlappingSessions = false` with the explanatory error
"Missing required parameters", whatever the store would have answered, and
does not throw (the result is returned, for every store value). -/
theorem guard_missing_input (event : GuardEvent)
    (store : Except ClientError (List RequestRecord))
    (h : event.requests_table = none ∨ event.requests_table = some ""
      ∨ event.id = none ∨ event.id = some ""
      ∨ event.email = none ∨ event.email = some ""
      ∨ event.accountId = none ∨ event.accountId = some ""
      ∨ event.roleId = none ∨ event.roleId = some "") :
    lambda_handler event store
      = { hasOverlappingSessions := false, overlappingCount := none,
          error := some "Missing required parameters" }
    ∧ ("Missing required parameters" : String) ≠ "" := by
  have hap : allPresent event = false := by
    rcases h with h | h | h | h | h | h | h | h | h | h <;>
      simp [allPresent, pyTruthy, h]
  exact ⟨by simp [lambda_handler, hap], by decide⟩

/-- C7 witness: an event missing the email returns the missing-input
result. -/
theorem guard_missing_input_witness :
    ((⟨some "tbl", some "req-1", none, some "111", some "ps-1"⟩ : GuardEvent).email = none
      ∨ (⟨some "tbl", some "req-1", none, some "111", some "ps-1"⟩ : GuardEvent).email = some "")
    ∧ (lambda_handler ⟨some "tbl", some "req-1", none, some "111", some "ps-1"⟩ (.ok [])
        = { hasOverlappingSessions := false, overlappingCount := none,
            error := some "Missing required parameters" }
      ∧ ("Missing required parameters" : String) ≠ "") :=
  ⟨Or.inl rfl,
   guard_missing_input ⟨some "tbl", some "req-1", none, some "111", some "ps-1"⟩ (.ok [])
     (by right; right; right; right; left; rfl)⟩

/-- C8 counterexample: on the missing-input branch the returned dict has no
count field at all (`overlappingCount = none`), so the count is not present
in every returned result as claimed. -/
theorem guard_count_field_counterexample :
    (lambda_handler ⟨none, none, none, none, none⟩ (.ok [])).overlappingCount = none := by
  decide

/-- C8 amended: every Guard invocation returns a well-formed result whose
`hasOverlappingSessions` boolean is always present; the missing-input branch
and the query-failure branch both return the flag false with no count field
and a non-empty error string, while the successful-query branch returns the
integer count (which also decides the flag) and no error — so the count is
present exactly on the successful-query branch. -/
theorem guard_result_shape (event : GuardEvent)
    (store : Except ClientError (List RequestRecord)) :
    (allPresent event = false →
      lambda_handler event store
        = { hasOverlappingSessions := false, overlappingCount := none,
            error := some "Missing required parameters" }
      ∧ ("Missing required parameters" : String) ≠ "")
    ∧ (∀ e, allPresent event = true → store = Except.error e →
      lambda_handler event store
        = { hasOverlappingSessions := false, overlappingCount := none,
            error := some (ClientError.str e) }
      ∧ ClientError.str e ≠ "")
    ∧ (∀ table, allPresent event = true → store = Except.ok table →
      ∃ n, lambda_handler event store
        = { hasOverlappingSessions := decide (0 < n), overlappingCount := some n,
            error := none }) := by
  refine ⟨?_, ?_, ?_⟩
  · intro hap
    exact ⟨by simp [lambda_handler, hap], by decide⟩
  · intro e hap hst
    subst hst
    have hap' : ¬ allPresent event = false := by simp [hap]
    exact ⟨by simp [lambda_handler, hap'], ClientError.str_ne_empty e⟩
  · intro table hap hst
    subst hst
    have hap' : ¬ allPresent event = false := by simp [hap]
    exact ⟨(scanOverlapping table (event.email.getD "") (event.accountId.getD "")
        (event.roleId.getD "") (event.id.getD "")).length,
      by simp [lambda_handler, hap']⟩

/-- Helper: `publishPolicy` returns its argument unchanged on every
outcome. -/
theorem publishPolicy_id (outcome : PublishOutcome) (result : AggResult) :
    publishPolicy outcome result = result := by
  cases outcome <;> rfl

/-- C6: expanding an OU excludes a member account iff it is the management
account and the deployment account differs from the management account; when
the deployment account is the management account every member account,
including the management account, is returned. -/
theorem ou_expansion_mgmt_filter (accountId m : String) (accts : List Acct) :
    ∃ l, list_account_for_ou accountId (some m) (Except.ok accts) = some l
      ∧ (∀ i, i ∈ l.map (fun e => e.id)
          ↔ i ∈ accts.map (fun a => a.Id) ∧ ¬(i = m ∧ accountId ≠ m))
      ∧ (accountId = m → l = accts.map (fun a => { name := a.Name, id := a.Id })) := by
  refine ⟨_, rfl, ?_, ?_⟩
  · intro i
    simp only [list_account_for_ou, pyEq, List.map_map, List.mem_map, Function.comp,
      List.mem_filter]
    by_cases ham : accountId = m
    · simp [ham]
    · have ham' : (accountId == m) = false := by
        rw [beq_eq_false_iff_ne]; exact ham
      simp only [ham', Bool.false_or, Bool.not_eq_true', ham, ne_eq, not_false_iff,
        and_true, beq_eq_false_iff_ne]
      constructor
      · rintro ⟨a, ⟨hmem, hne⟩, hid⟩
        exact ⟨⟨a, hmem, hid⟩, fun him => hne (hid.symm ▸ him ▸ rfl)⟩
      · rintro ⟨⟨a, hmem, hid⟩, hne⟩
        exact ⟨a, ⟨hmem, fun haid => hne (by rw [← hid, haid])⟩, hid⟩
  · intro ham
    simp [list_account_for_ou, pyEq, ham]

/-- C10: when the management-account lookup at module initialisation failed
(so the stored management account id is `None`), OU expansion filters out no
member account at all — the whole member list, management account included,
is returned even though the deployment is not the management account. -/
theorem mgmt_lookup_failure_no_filtering (accountId : String) (e : ClientError)
    (accts : List Acct) :
    list_account_for_ou accountId (get_mgmt_account_id (Except.error e)) (Except.ok accts)
      = some (accts.map (fun a => { name := a.Name, id := a.Id })) := by
  simp [list_account_for_ou, get_mgmt_account_id, pyEq]

/-- C4: when a policy id is resolvable both through the `byEntityId` index
and through the legacy primary-key lookup, the resolved list keeps the
index-path copy and contains that id exactly once: the legacy item is not
appended. -/
theorem entitlements_dedup_by_id (items : List PolicyItem) (old : PolicyItem)
    (i : String) (hid : old.id = some i)
    (honce : items.countP (fun p => p.id == some i) = 1) :
    get_entitlements (Except.ok items) (Except.ok (some old)) = items
    ∧ (get_entitlements (Except.ok items) (Except.ok (some old))).countP
        (fun p => p.id == some i) = 1 := by
  have hany : items.any (fun p => p.id == old.id) = true := by
    rw [hid, List.any_eq_true]
    have hpos : 0 < items.countP (fun p => p.id == some i) := by omega
    exact List.countP_pos_iff.mp hpos
  have heq : get_entitlements (Except.ok items) (Except.ok (some old)) = items := by
    simp [get_entitlements, hany]
  exact ⟨heq, by rw [heq]; exact honce⟩

/-- C4 witness: the policy "p1" found by both paths appears exactly once,
and the index-path copy is the one kept. -/
theorem entitlements_dedup_by_id_witness :
    (⟨some "p1", none, [⟨"legacy", "a9"⟩], [], [], some false, none⟩ : PolicyItem).id
        = some "p1"
    ∧ [(⟨some "p1", some "u1", [⟨"acct", "a1"⟩], [], [], none, some "5"⟩ : PolicyItem)].countP
        (fun p => p.id == some "p1") = 1
    ∧ (get_entitlements
        (Except.ok [(⟨some "p1", some "u1", [⟨"acct", "a1"⟩], [], [], none, some "5"⟩ : PolicyItem)])
        (Except.ok (some ⟨some "p1", none, [⟨"legacy", "a9"⟩], [], [], some false, none⟩))
      = [(⟨some "p1", some "u1", [⟨"acct", "a1"⟩], [], [], none, some "5"⟩ : PolicyItem)]
    ∧ (get_entitlements
        (Except.ok [(⟨some "p1", some "u1", [⟨"acct", "a1"⟩], [], [], none, some "5"⟩ : PolicyItem)])
        (Except.ok (some ⟨some "p1", none, [⟨"legacy", "a9"⟩], [], [], some false, none⟩))).countP
        (fun p => p.id == some "p1") = 1) :=
  ⟨rfl, by decide,
   entitlements_dedup_by_id
     [(⟨some "p1", some "u1", [⟨"acct", "a1"⟩], [], [], none, some "5"⟩ : PolicyItem)]
     ⟨some "p1", none, [⟨"legacy", "a9"⟩], [], [], some false, none⟩
     "p1" rfl (by decide)⟩

/-- C9: whatever the outcome of the AppSync publish call — a transport
error, a response carrying GraphQL errors, or a success — the handler's
return value is exactly the locally computed aggregation result; a publish
failure is never escalated to the caller. -/
theorem publish_failure_not_escalated
    (dir : String → Except ClientError (List Acct))
    (indexQ : String → Except ClientError (List PolicyItem))
    (keyQ : String → Except ClientError (Option PolicyItem))
    (accountId : String) (mgmt : Option String)
    (outcome : PublishOutcome) (event : HandlerEvent) :
    handler dir indexQ keyQ accountId mgmt outcome event
      = computeResult dir indexQ keyQ accountId mgmt event := by
  unfold handler
  cases hc : computeResult dir indexQ keyQ accountId mgmt event with
  | error msg => rfl
  | ok result => simp [Except.map, publishPolicy_id]

/-- C3 evaluation at the failing input: an aggregation where the single
identity's policy names one OU whose directory expansion raises a
ClientError does not continue — `list_account_for_ou` returns `None` after
catching the error and the handler's `extend(data)` raises `TypeError`, so
the aggregation fails outright instead of treating the OU as contributing
nothing. -/
theorem ou_failure_aborts_aggregation :
    handler
      (fun _ => Except.error ⟨"AccessDeniedException", "ListAccountsForParent", "denied"⟩)
      (fun _ => Except.ok [⟨some "pol-1", some "u1", [⟨"acct", "a1"⟩], [⟨"ou-1"⟩], [],
        none, some "5"⟩])
      (fun _ => Except.ok none)
      "111111111111" (some "999999999999")
      (.success "ok")
      ⟨"u1", [], "alice", "req-1"⟩
    = Except.error "TypeError: NoneType object is not iterable" := by
  rfl

/-- Helper: one step of the inner item loop when the item's processing
succeeds. -/
theorem processItems_cons (dir : String → Except ClientError (List Acct))
    (accountId : String) (mgmt : Option String) (item : PolicyItem)
    (rest : List PolicyItem) (eligibility : List PolicyEntry) (maxDuration : Int)
    (entry : PolicyEntry) (maxDuration' : Int)
    (h : processItem dir accountId mgmt maxDuration item = Except.ok (entry, maxDuration')) :
    processItems dir accountId mgmt (item :: rest) eligibility maxDuration
      = processItems dir accountId mgmt rest (eligibility ++ [entry]) maxDuration' := by
  simp only [processItems, h]
  rfl

/-- Helper: one step of the outer identity loop for a non-empty id whose
items process successfully. -/
theorem processIds_step (dir : String → Except ClientError (List Acct))
    (indexQ : String → Except ClientError (List PolicyItem))
    (keyQ : String → Except ClientError (Option PolicyItem))
    (accountId : String) (mgmt : Option String) (i : String) (rest : List String)
    (eligibility : List PolicyEntry) (maxDuration : Int)
    (eligibility' : List PolicyEntry) (maxDuration' : Int)
    (hne : (i == "") = false)
    (hpi : processItems dir accountId mgmt (get_entitlements (indexQ i) (keyQ i))
        eligibility maxDuration = Except.ok (eligibility', maxDuration')) :
    processIds dir indexQ keyQ accountId mgmt (i :: rest) eligibility maxDuration
      = processIds dir indexQ keyQ accountId mgmt rest eligibility' maxDuration' := by
  simp only [processIds, hne, Bool.false_eq_true, if_false, hpi]
  rfl

/-- C5: processing identities in order, an output entry whose source policy
lacks a duration field gets the string of the running maximum at the moment
that entry is processed, not the final maximum: with identities
`[idA, idB, idC]` resolving to a policy of duration `n`, a policy with no
duration, and a policy of duration `m > n`, the middle entry's duration is
`toString n` even though the final maximum is `m`. -/
theorem duration_default_running_max
    (dir : String → Except ClientError (List Acct))
    (indexQ : String → Except ClientError (List PolicyItem))
    (keyQ : String → Except ClientError (Option PolicyItem))
    (accountId : String) (mgmt : Option String) (outcome : PublishOutcome)
    (idA idB idC username correlationId dA dC : String)
    (itemA itemB itemC : PolicyItem) (n m : Int)
    (hA : idA ≠ "") (hB : idB ≠ "") (hC : idC ≠ "")
    (hiA : indexQ idA = Except.ok [itemA]) (hkA : keyQ idA = Except.ok none)
    (hiB : indexQ idB = Except.ok [itemB]) (hkB : keyQ idB = Except.ok none)
    (hiC : indexQ idC = Except.ok [itemC]) (hkC : keyQ idC = Except.ok none)
    (hdA : itemA.duration = some dA) (hnA : pyInt dA = some n) (hn : 0 < n)
    (hdB : itemB.duration = none)
    (hdC : itemC.duration = some dC) (hnC : pyInt dC = some m) (hm : n < m)
    (hoA : itemA.ous = []) (hoB : itemB.ous = []) (hoC : itemC.ous = []) :
    handler dir indexQ keyQ accountId mgmt outcome
        ⟨idA, [idB, idC], username, correlationId⟩
      = Except.ok ⟨correlationId,
          [⟨itemA.accounts, itemA.permissions, itemA.approvalRequired.getD true, dA⟩,
           ⟨itemB.accounts, itemB.permissions, itemB.approvalRequired.getD true, toString n⟩,
           ⟨itemC.accounts, itemC.permissions, itemC.approvalRequired.getD true, dC⟩],
          username⟩ := by
  have hA' : (idA == "") = false := by rw [beq_eq_false_iff_ne]; exact hA
  have hB' : (idB == "") = false := by rw [beq_eq_false_iff_ne]; exact hB
  have hC' : (idC == "") = false := by rw [beq_eq_false_iff_ne]; exact hC
  have h0 : pyInt "0" = some 0 := by decide
  have hitemA : processItem dir accountId mgmt 0 itemA
      = Except.ok (⟨itemA.accounts, itemA.permissions,
          itemA.approvalRequired.getD true, dA⟩, n) := by
    have h1 : processItem dir accountId mgmt 0 itemA
        = Except.ok (⟨itemA.accounts, itemA.permissions,
            itemA.approvalRequired.getD true, dA⟩, if n > 0 then n else 0) := by
      simp only [processItem, hdA, hnA, hoA, Option.getD_some]
      rfl
    rw [h1, if_pos hn]
  have hitemB : processItem dir accountId mgmt n itemB
      = Except.ok (⟨itemB.accounts, itemB.permissions,
          itemB.approvalRequired.getD true, toString n⟩, n) := by
    have h1 : processItem dir accountId mgmt n itemB
        = Except.ok (⟨itemB.accounts, itemB.permissions, itemB.approvalRequired.getD true,
            toString (if (0 : Int) > n then (0 : Int) else n)⟩,
            if (0 : Int) > n then (0 : Int) else n) := by
      simp only [processItem, hdB, h0, hoB, Option.getD_none]
      rfl
    rw [h1, if_neg (by omega : ¬ ((0 : Int) > n))]
  have hitemC : processItem dir accountId mgmt n itemC
      = Except.ok (⟨itemC.accounts, itemC.permissions,
          itemC.approvalRequired.getD true, dC⟩, m) := by
    have h1 : processItem dir accountId mgmt n itemC
        = Except.ok (⟨itemC.accounts, itemC.permissions,
            itemC.approvalRequired.getD true, dC⟩, if m > n then m else n) := by
      simp only [processItem, hdC, hnC, hoC, Option.getD_some]
      rfl
    rw [h1, if_pos hm]
  have hgaA : get_entitlements (indexQ idA) (keyQ idA) = [itemA] := by rw [hiA, hkA]; rfl
  have hgaB : get_entitlements (indexQ idB) (keyQ idB) = [itemB] := by rw [hiB, hkB]; rfl
  have hgaC : get_entitlements (indexQ idC) (keyQ idC) = [itemC] := by rw [hiC, hkC]; rfl
  have hpiA : processItems dir accountId mgmt (get_entitlements (indexQ idA) (keyQ idA)) [] 0
      = Except.ok ([⟨itemA.accounts, itemA.permissions,
          itemA.approvalRequired.getD true, dA⟩], n) := by
    rw [hgaA, processItems_cons dir accountId mgmt itemA [] [] 0 _ _ hitemA]
    rfl
  have hpiB : processItems dir accountId mgmt (get_entitlements (indexQ idB) (keyQ idB))
        [⟨itemA.accounts, itemA.permissions, itemA.approvalRequired.getD true, dA⟩] n
      = Except.ok ([⟨itemA.accounts, itemA.permissions,
            itemA.approvalRequired.getD true, dA⟩,
          ⟨itemB.accounts, itemB.permissions,
            itemB.approvalRequired.getD true, toString n⟩], n) := by
    rw [hgaB, processItems_cons dir accountId mgmt itemB [] _ n _ _ hitemB]
    rfl
  have hpiC : processItems dir accountId mgmt (get_entitlements (indexQ idC) (keyQ idC))
        [⟨itemA.accounts, itemA.permissions, itemA.approvalRequired.getD true, dA⟩,
         ⟨itemB.accounts, itemB.permissions, itemB.approvalRequired.getD true, toString n⟩] n
      = Except.ok ([⟨itemA.accounts, itemA.permissions,
            itemA.approvalRequired.getD true, dA⟩,
          ⟨itemB.accounts, itemB.permissions,
            itemB.approvalRequired.getD true, toString n⟩,
          ⟨itemC.accounts, itemC.permissions,
            itemC.approvalRequired.getD true, dC⟩], m) := by
    rw [hgaC, processItems_cons dir accountId mgmt itemC [] _ n _ _ hitemC]
    rfl
  have hstep : processIds dir indexQ keyQ accountId mgmt [idA, idB, idC] [] 0
      = Except.ok
          ([⟨itemA.accounts, itemA.permissions, itemA.approvalRequired.getD true, dA⟩,
            ⟨itemB.accounts, itemB.permissions, itemB.approvalRequired.getD true, toString n⟩,
            ⟨itemC.accounts, itemC.permissions, itemC.approvalRequired.getD true, dC⟩], m) := by
    rw [processIds_step dir indexQ keyQ accountId mgmt idA [idB, idC] [] 0 _ _ hA' hpiA,
      processIds_step dir indexQ keyQ accountId mgmt idB [idC] _ n _ _ hB' hpiB,
      processIds_step dir indexQ keyQ accountId mgmt idC [] _ n _ _ hC' hpiC]
    rfl
  have hfinal : computeResult dir indexQ keyQ accountId mgmt
        ⟨idA, [idB, idC], username, correlationId⟩
      = Except.ok ⟨correlationId,
          [⟨itemA.accounts, itemA.permissions, itemA.approvalRequired.getD true, dA⟩,
           ⟨itemB.accounts, itemB.permissions, itemB.approvalRequired.getD true, toString n⟩,
           ⟨itemC.accounts, itemC.permissions, itemC.approvalRequired.getD true, dC⟩],
          username⟩ := by
    simp only [computeResult, hstep]
    rfl
  unfold handler
  rw [hfinal]
  cases outcome <;> rfl

/-- C5 witness: identities `["u1", "g1", "g2"]` with durations 5, absent,
and 7 give the middle entry the running maximum "5", not the final maximum
"7". -/
theorem duration_default_running_max_witness :
    (0 : Int) < 5 ∧ (5 : Int) < 7 ∧
    handler (fun _ => Except.ok [])
      (fun i => if i == "g1" then Except.ok [⟨some "pB", some "g1", [], [], [], none, none⟩]
        else if i == "g2" then Except.ok [⟨some "pC", some "g2", [], [], [], none, some "7"⟩]
        else Except.ok [⟨some "pA", some "u1", [], [], [], none, some "5"⟩])
      (fun _ => Except.ok none)
      "111111111111" (some "999999999999") (.success "ok")
      ⟨"u1", ["g1", "g2"], "alice", "req-9"⟩
      = Except.ok ⟨"req-9",
          [⟨[], [], true, "5"⟩, ⟨[], [], true, "5"⟩, ⟨[], [], true, "7"⟩],
          "alice"⟩ :=
  by
  refine ⟨by decide, by decide, ?_⟩
  exact duration_default_running_max (fun _ => Except.ok [])
     (fun i => if i == "g1" then Except.ok [⟨some "pB", some "g1", [], [], [], none, none⟩]
       else if i == "g2" then Except.ok [⟨some "pC", some "g2", [], [], [], none, some "7"⟩]
       else Except.ok [⟨some "pA", some "u1", [], [], [], none, some "5"⟩])
     (fun _ => Except.ok none)
     "111111111111" (some "999999999999") (.success "ok")
     "u1" "g1" "g2" "alice" "req-9" "5" "7"
     ⟨some "pA", some "u1", [], [], [], none, some "5"⟩
     ⟨some "pB", some "g1", [], [], [], none, none⟩
     ⟨some "pC", some "g2", [], [], [], none, some "7"⟩ 5 7
     (by decide) (by decide) (by decide)
     rfl rfl rfl rfl rfl rfl
     rfl (by decide) (by decide)
     rfl
     rfl (by decide) (by decide)
     rfl rfl rfl
